import Mathlib

/- Shallow embedding of the SQL `INSERT ... VALUES` parsers of the kms
repository: `backend/scripts/load_sql_data.py` (`parse_sql_values`,
`parse_record_values`, `load_sql_file`) and
`backend/scripts/create_full_database.py` (`parse_sql_insert_statements`,
`parse_values_string`, `load_sample_cases_500`).  Strings are modelled as
`List Char`; the Python `while` loops with a cursor index become structural
recursion over the remaining character list (one recursive call per loop
iteration, each consuming exactly the characters the Python iteration
advances over). -/

/-- The single-quote character `'` (code point 39). -/
def squoteC : Char := Char.ofNat 39

/-- The backslash character `\` (code point 92). -/
def bslashC : Char := Char.ofNat 92

/-- Horizontal tab. -/
def tabC : Char := Char.ofNat 9

/-- Newline. -/
def nlC : Char := Char.ofNat 10

/-- Vertical tab. -/
def vtC : Char := Char.ofNat 11

/-- Form feed. -/
def ffC : Char := Char.ofNat 12

/-- Carriage return. -/
def crC : Char := Char.ofNat 13

/-- Python whitespace as used by `str.strip()` and the regex class `\s`
(ASCII): space, tab, newline, carriage return, vertical tab, form feed. -/
def isPyWs (c : Char) : Bool :=
  c == ' ' || c == tabC || c == nlC || c == crC || c == vtC || c == ffC

/-- The exact three-character whitespace set `' \t\n'` used by the
skip-to-comma inner loops after a closing quote (load_sql_data.py line 208,
create_full_database.py line 266). -/
def isSkipWs (c : Char) : Bool :=
  c == ' ' || c == tabC || c == nlC

/-- The regex word class `\w` (ASCII): letters, digits, underscore. -/
def isWordChar (c : Char) : Bool :=
  (97 ≤ c.toNat && c.toNat ≤ 122) || (65 ≤ c.toNat && c.toNat ≤ 90) ||
  (48 ≤ c.toNat && c.toNat ≤ 57) || c.toNat == 95

/-- ASCII uppercase of one character, as Python `str.upper()` acts on the
ASCII inputs relevant here. -/
def asciiUpper (c : Char) : Char :=
  if 97 ≤ c.toNat && c.toNat ≤ 122 then Char.ofNat (c.toNat - 32) else c

/-- Python `str.upper()` over a character list. -/
def pyUpperL (cs : List Char) : List Char := cs.map asciiUpper

/-- Python `str.strip()` over a character list: drop leading and trailing
whitespace. -/
def pyStripL (cs : List Char) : List Char :=
  ((cs.dropWhile isPyWs).reverse.dropWhile isPyWs).reverse

/-- The keyword `NULL` compared against by both normalizers. -/
def kwNULL : List Char := "NULL".data

/-- The null-sentinel the loaders use: both parsers append the empty string
for a bare `NULL` token (`values.append('')`, load_sql_data.py line 219 and
231, create_full_database.py line 275 and 294). -/
def nullSentinel : String := ""

/-- Normalization of a bare (unquoted) field token, shared text of
load_sql_data.py lines 217-221/229-234 and create_full_database.py lines
272-276/291-296: strip whitespace, map a case-insensitive `NULL` to the
null-sentinel, otherwise keep the stripped text. -/
def normBare (cs : List Char) : String :=
  let v := pyStripL cs
  if pyUpperL v = kwNULL then nullSentinel else String.mk v

/-- The character-scanning loop of `parse_record_values`
(load_sql_data.py lines 178-236).  State: remaining input, current token
buffer, in-string flag, escape flag, and a `skipping` flag that models the
inner whitespace/optional-comma skip loop entered right after a closing
quote (lines 207-211). -/
def prvGo : List Char → List Char → Bool → Bool → Bool → List String
  | [], current, _, _, _ =>
      if !(pyStripL current).isEmpty then [normBare current] else []
  | c :: cs, current, inStr, esc, skipping =>
      if skipping && isSkipWs c then
        prvGo cs current inStr esc true
      else if skipping && (c == ',') then
        prvGo cs current inStr esc false
      else if esc then
        prvGo cs (current ++ [c]) inStr false false
      else if c == bslashC then
        prvGo cs (current ++ [c]) inStr true false
      else if c == squoteC then
        if inStr then
          String.mk current :: prvGo cs [] false false true
        else
          prvGo cs current true false false
      else if inStr then
        prvGo cs (current ++ [c]) inStr false false
      else if c == ',' then
        normBare current :: prvGo cs [] inStr false false
      else
        prvGo cs (current ++ [c]) inStr false false

/-- `parse_record_values` on a character list. -/
def parse_record_values_l (cs : List Char) : List String :=
  prvGo cs [] false false false

/-- `SQLDataLoader.parse_record_values` (load_sql_data.py lines 178-236). -/
def parse_record_values (s : String) : List String :=
  parse_record_values_l s.data

/-- The character-scanning loop of `parse_values_string`
(create_full_database.py lines 235-299).  Same state as `prvGo` plus the
(possibly negative) parenthesis counter `paren_count : Int`. -/
def pvsGo : List Char → List Char → Bool → Bool → Int → Bool → List String
  | [], current, _, _, _, _ =>
      if !(pyStripL current).isEmpty then [normBare current] else []
  | c :: cs, current, inStr, esc, paren, skipping =>
      if skipping && isSkipWs c then
        pvsGo cs current inStr esc paren true
      else if skipping && (c == ',') then
        pvsGo cs current inStr esc paren false
      else if esc then
        pvsGo cs (current ++ [c]) inStr false paren false
      else if c == bslashC then
        pvsGo cs (current ++ [c]) inStr true paren false
      else if c == squoteC then
        if inStr then
          String.mk current :: pvsGo cs [] false false paren true
        else
          pvsGo cs current true false paren false
      else if inStr then
        pvsGo cs (current ++ [c]) inStr false paren false
      else if (c == ',') && (paren == 0) then
        normBare current :: pvsGo cs [] inStr false paren false
      else if c == '(' then
        pvsGo cs (current ++ [c]) inStr false (paren + 1) false
      else if c == ')' then
        pvsGo cs (current ++ [c]) inStr false (paren - 1) false
      else
        pvsGo cs (current ++ [c]) inStr false paren false

/-- `parse_values_string` on a character list. -/
def parse_values_string_l (cs : List Char) : List String :=
  pvsGo cs [] false false 0 false

/-- `DatabaseCreator.parse_values_string` (create_full_database.py lines
235-299). -/
def parse_values_string (s : String) : List String :=
  parse_values_string_l s.data

/-- The record-splitting loop of `parse_sql_values` over a batch VALUES
section (load_sql_data.py lines 122-176).  State: remaining input, current
record buffer, in-string flag, escape flag, parenthesis counter
(`paren_count : Int`, may go negative). -/
def splitGo : List Char → List Char → Bool → Bool → Int → List (List String)
  | [], current, _, _, paren =>
      if !(pyStripL current).isEmpty && paren == 0 then
        [parse_record_values_l (pyStripL current)]
      else []
  | c :: cs, current, inStr, esc, paren =>
      if esc then
        splitGo cs (current ++ [c]) inStr false paren
      else if c == bslashC then
        splitGo cs (current ++ [c]) inStr true paren
      else if c == squoteC then
        splitGo cs (current ++ [c]) (!inStr) false paren
      else if inStr then
        splitGo cs (current ++ [c]) inStr false paren
      else if c == '(' then
        if paren + 1 == 1 then
          splitGo cs [] inStr false (paren + 1)
        else
          splitGo cs (current ++ [c]) inStr false (paren + 1)
      else if c == ')' then
        if paren - 1 == 0 then
          (if !(pyStripL current).isEmpty then
            [parse_record_values_l (pyStripL current)]
          else []) ++ splitGo cs [] inStr false (paren - 1)
        else
          splitGo cs (current ++ [c]) inStr false (paren - 1)
      else
        splitGo cs (current ++ [c]) inStr false paren

/-- The record-splitting loop on a character list, from the initial state. -/
def splitRecords_l (cs : List Char) : List (List String) :=
  splitGo cs [] false false 0

/-- The record-splitting loop on a string. -/
def splitRecords (s : String) : List (List String) :=
  splitRecords_l s.data

/-- Case-insensitive literal matcher: drop the pattern from the front of the
input, comparing characters up to ASCII case (regex literals under
`re.IGNORECASE`). -/
def dropCI : List Char → List Char → Option (List Char)
  | [], cs => some cs
  | _ :: _, [] => none
  | p :: ps, c :: cs =>
      if asciiUpper c = asciiUpper p then dropCI ps cs else none

/-- Greedy `class+` matcher: require at least one character satisfying `p`,
then drop the maximal run (regex `X+` where what follows cannot start with
an `X` character, so maximal munch is exact). -/
def dropWhile1 (p : Char → Bool) : List Char → Option (List Char)
  | [] => none
  | c :: cs => if p c then some (cs.dropWhile p) else none

/-- Single literal character matcher. -/
def dropChar (a : Char) : List Char → Option (List Char)
  | [] => none
  | c :: cs => if c == a then some cs else none

/-- Keyword `INSERT`. -/
def kwINSERT : List Char := "INSERT".data

/-- Keyword `INTO`. -/
def kwINTO : List Char := "INTO".data

/-- Keyword `VALUES`. -/
def kwVALUES : List Char := "VALUES".data

/-- The shared tail `VALUES\s*[\n]\s*\(([^;]+)\);` of the two
individual-INSERT patterns, applied to the input remaining after the
`VALUES` keyword.  When `newlineRequired` is true (the load_sql_data.py
line 100 pattern has `VALUES\s*\n\s*\(`), the whitespace run after
`VALUES` must contain a newline — `\s*\n\s*` matches exactly the
whitespace runs containing at least one `\n`.  Then `\(` consumes the open
parenthesis and `([^;]+)\);` forces the capture to end just before the
first `;`, whose preceding character must be `)` and which must leave a
non-empty capture. -/
def matchTale (newlineRequired : Bool) (r10 : List Char) :
    Option (List Char × List Char) :=
  let run := r10.takeWhile isPyWs
  if newlineRequired && !(run.contains nlC) then none
  else
    (dropChar '(' (r10.dropWhile isPyWs)).bind fun r11 =>
      let body := r11.takeWhile (fun c => !(c == ';'))
      match r11.dropWhile (fun c => !(c == ';')) with
      | _ :: rest =>
          if 2 ≤ body.length && (body.getLast? == some ')') then
            some (body.dropLast, rest)
          else none
      | [] => none

/-- One attempted match, anchored at the front of the input, of the
load_sql_data.py line 100 pattern
`INSERT\s+INTO\s+\w+\s*\([^)]+\)\s+VALUES\s*\n\s*\(([^;]+)\);`
(flags DOTALL and IGNORECASE).  Each `X+`/`X*` run is followed by a
character its class cannot contain, so greedy maximal munch is exact.
Returns the capture and the input remaining after the match. -/
def matchInsertValuesNl (cs : List Char) : Option (List Char × List Char) :=
  (dropCI kwINSERT cs).bind fun r1 =>
  (dropWhile1 isPyWs r1).bind fun r2 =>
  (dropCI kwINTO r2).bind fun r3 =>
  (dropWhile1 isPyWs r3).bind fun r4 =>
  (dropWhile1 isWordChar r4).bind fun r5 =>
  (dropChar '(' (r5.dropWhile isPyWs)).bind fun r6 =>
  (dropWhile1 (fun c => !(c == ')')) r6).bind fun r7 =>
  (dropChar ')' r7).bind fun r8 =>
  (dropWhile1 isPyWs r8).bind fun r9 =>
  (dropCI kwVALUES r9).bind fun r10 =>
  matchTale true r10

/-- One attempted match, anchored at the front of the input, of the
create_full_database.py line 224 pattern
`INSERT\s+INTO\s+\w+\s*\([^)]+\)\s+VALUES\s*\(([^;]+)\);`
(flags DOTALL and IGNORECASE) — identical to the load_sql_data.py pattern
except that no newline is required after `VALUES`. -/
def matchInsertValues (cs : List Char) : Option (List Char × List Char) :=
  (dropCI kwINSERT cs).bind fun r1 =>
  (dropWhile1 isPyWs r1).bind fun r2 =>
  (dropCI kwINTO r2).bind fun r3 =>
  (dropWhile1 isPyWs r3).bind fun r4 =>
  (dropWhile1 isWordChar r4).bind fun r5 =>
  (dropChar '(' (r5.dropWhile isPyWs)).bind fun r6 =>
  (dropWhile1 (fun c => !(c == ')')) r6).bind fun r7 =>
  (dropChar ')' r7).bind fun r8 =>
  (dropWhile1 isPyWs r8).bind fun r9 =>
  (dropCI kwVALUES r9).bind fun r10 =>
  matchTale false r10

/-- `re.findall` over a fixed anchored matcher: try the matcher at every
position from left to right; on success record the capture and resume after
the match.  Fuel bounds the number of steps (each step consumes at least one
character, so fuel equal to the input length suffices); exhaustion yields
`none`. -/
def findallGo (m : List Char → Option (List Char × List Char)) :
    Nat → List Char → Option (List (List Char))
  | _, [] => some []
  | 0, _ :: _ => none
  | f + 1, c :: cs =>
      match m (c :: cs) with
      | some (cap, rest) => (findallGo m f rest).map (fun caps => cap :: caps)
      | none => findallGo m f cs

/-- One attempted match, anchored at the front of the input, of the
load_sql_data.py line 105 pattern `VALUES\s*\n(.*)` (flags DOTALL and
IGNORECASE): `VALUES`, then a whitespace run containing a newline — the
greedy `\s*` consumes up to the run's last newline — then capture the whole
remainder. -/
def matchValuesNl (cs : List Char) : Option (List Char) :=
  (dropCI kwVALUES cs).bind fun r =>
    let run := r.takeWhile isPyWs
    let rest := r.dropWhile isPyWs
    if run.contains nlC then
      some ((run.reverse.takeWhile (fun c => !(c == nlC))).reverse ++ rest)
    else none

/-- `re.search` of the `VALUES\s*\n(.*)` pattern: leftmost position where
the anchored matcher succeeds. -/
def searchValuesNl : List Char → Option (List Char)
  | [] => none
  | c :: cs =>
      match matchValuesNl (c :: cs) with
      | some cap => some cap
      | none => searchValuesNl cs

/-- `SQLDataLoader.parse_sql_values` (load_sql_data.py lines 97-176): if the
individual-INSERT pattern matches, parse each captured values text with
`parse_record_values` (keeping non-empty results, line 113-116); otherwise
search for the batch `VALUES\s*\n(.*)` section and run the record-splitting
loop on it, or return no records (after logging an error) when that also
fails.  `none` only on regex-scan fuel exhaustion, which cannot occur with
fuel equal to the input length. -/
def parse_sql_values (s : String) : Option (List (List String)) :=
  match findallGo matchInsertValuesNl s.data.length s.data with
  | none => none
  | some ms =>
      if ms.isEmpty then
        match searchValuesNl s.data with
        | none => some []
        | some vs => some (splitGo vs [] false false 0)
      else
        some (ms.foldr (fun m acc =>
          let rv := parse_record_values_l (pyStripL m)
          if !rv.isEmpty then rv :: acc else acc) [])

/-- True exactly when `parse_sql_values` takes the
`logger.error("No VALUES section found in SQL")` path (load_sql_data.py
line 107): both the individual-INSERT pattern and the batch `VALUES` search
fail. -/
def parse_sql_values_reports_no_values (s : String) : Bool :=
  match findallGo matchInsertValuesNl s.data.length s.data with
  | none => false
  | some ms => ms.isEmpty && (searchValuesNl s.data).isNone

/-- `DatabaseCreator.parse_sql_insert_statements` (create_full_database.py
lines 221-233): find every individual-INSERT match and parse its captured
values text with `parse_values_string`, keeping non-empty results. -/
def parse_sql_insert_statements (s : String) : Option (List (List String)) :=
  (findallGo matchInsertValues s.data.length s.data).map (fun ms =>
    ms.foldr (fun m acc =>
      let v := parse_values_string_l (pyStripL m)
      if !v.isEmpty then v :: acc else acc) [])

/-- The row-width adjustment both loaders apply before the parameterized
insert: pad on the right with the null-sentinel while shorter than `n`
(`while len(record) < n: record.append('')`), then truncate to the first `n`
entries (`record[:n]`) — load_sql_data.py lines 282-286 with `n = 58`,
create_full_database.py lines 352-355 with `n = 57`. -/
def padTruncate (n : Nat) (r : List String) : List String :=
  (r ++ List.replicate (n - r.length) nullSentinel).take n


/-- `List Char` version of Python `str.startswith` used to build the
substring test below. -/
def isPref : List Char → List Char → Bool
  | [], _ => true
  | _ :: _, [] => false
  | a :: as, b :: bs => a == b && isPref as bs

/-- Python's `needle in haystack` substring test. -/
def hasSub (needle : List Char) : List Char → Bool
  | [] => needle.isEmpty
  | c :: cs => isPref needle (c :: cs) || hasSub needle cs

/-- The literal checked by both loaders' duplicate classifiers. -/
def kwUNIQUE : List Char := "UNIQUE constraint failed".data

/-- Outcome of one row's parameterized insert, as the loaders' `try/except`
blocks distinguish them: success, `sqlite3.IntegrityError`, or any other
exception (load_sql_data.py lines 289-296, create_full_database.py lines
366-373). -/
inductive WriteOutcome where
  | ok : WriteOutcome
  | integrityError : String → WriteOutcome
  | otherError : String → WriteOutcome
deriving DecidableEq

/-- Per-batch accounting: successful inserts, duplicates skipped via the
UNIQUE-constraint branch, and rows whose error was logged. -/
structure LoadStats where
  inserted : Nat
  dupSkipped : Nat
  errors : Nat
deriving DecidableEq

/-- The duplicate test `"UNIQUE constraint failed" in str(e)`
(load_sql_data.py line 290, create_full_database.py line 367). -/
def isUniqueViolation (msg : String) : Bool :=
  hasSub kwUNIQUE msg.data

/-- The body of the per-record `try/except` in `load_sql_file`
(load_sql_data.py lines 259-296) and `load_sample_cases_500`
(create_full_database.py lines 357-373): a successful execute bumps the
insert count; an `IntegrityError` mentioning `UNIQUE constraint failed` is
skipped as a duplicate; every other error is logged for that row; in every
case the loop proceeds to the next record. -/
def handleRow (st : LoadStats) (w : WriteOutcome) : LoadStats :=
  match w with
  | WriteOutcome.ok => ⟨st.inserted + 1, st.dupSkipped, st.errors⟩
  | WriteOutcome.integrityError msg =>
      if isUniqueViolation msg then ⟨st.inserted, st.dupSkipped + 1, st.errors⟩
      else ⟨st.inserted, st.dupSkipped, st.errors + 1⟩
  | WriteOutcome.otherError _ => ⟨st.inserted, st.dupSkipped, st.errors + 1⟩

/-- The `for record in records` loop of both loaders, abstracted over the
store's response to each row's write. -/
def loadRecords (write : List String → WriteOutcome)
    (records : List (List String)) : LoadStats :=
  records.foldl (fun st r => handleRow st (write r)) ⟨0, 0, 0⟩

/-- Row classifier: the write succeeded. -/
def isOkRow : WriteOutcome → Bool
  | WriteOutcome.ok => true
  | _ => false

/-- Row classifier: skipped as a duplicate. -/
def isDupRow : WriteOutcome → Bool
  | WriteOutcome.integrityError msg => isUniqueViolation msg
  | _ => false

/-- Row classifier: an error was logged for this row. -/
def isErrRow : WriteOutcome → Bool
  | WriteOutcome.ok => false
  | WriteOutcome.integrityError msg => !isUniqueViolation msg
  | WriteOutcome.otherError _ => true

/-- Step-indexed form of the `parse_record_values` while-loop: one unit of
fuel per loop iteration (the loop exit at end of input costs none), `none`
on fuel exhaustion.  Used to state that the Python loop terminates within
`len(record_str)` iterations. -/
def prvLoop : Nat → List Char → List Char → Bool → Bool → Bool →
    Option (List String)
  | _, [], current, _, _, _ =>
      some (if !(pyStripL current).isEmpty then [normBare current] else [])
  | 0, _ :: _, _, _, _, _ => none
  | f + 1, c :: cs, current, inStr, esc, skipping =>
      if skipping && isSkipWs c then
        prvLoop f cs current inStr esc true
      else if skipping && (c == ',') then
        prvLoop f cs current inStr esc false
      else if esc then
        prvLoop f cs (current ++ [c]) inStr false false
      else if c == bslashC then
        prvLoop f cs (current ++ [c]) inStr true false
      else if c == squoteC then
        if inStr then
          (prvLoop f cs [] false false true).map
            (fun vs => String.mk current :: vs)
        else
          prvLoop f cs current true false false
      else if inStr then
        prvLoop f cs (current ++ [c]) inStr false false
      else if c == ',' then
        (prvLoop f cs [] inStr false false).map
          (fun vs => normBare current :: vs)
      else
        prvLoop f cs (current ++ [c]) inStr false false

/-- Step-indexed form of the `parse_values_string` while-loop. -/
def pvsLoop : Nat → List Char → List Char → Bool → Bool → Int → Bool →
    Option (List String)
  | _, [], current, _, _, _, _ =>
      some (if !(pyStripL current).isEmpty then [normBare current] else [])
  | 0, _ :: _, _, _, _, _, _ => none
  | f + 1, c :: cs, current, inStr, esc, paren, skipping =>
      if skipping && isSkipWs c then
        pvsLoop f cs current inStr esc paren true
      else if skipping && (c == ',') then
        pvsLoop f cs current inStr esc paren false
      else if esc then
        pvsLoop f cs (current ++ [c]) inStr false paren false
      else if c == bslashC then
        pvsLoop f cs (current ++ [c]) inStr true paren false
      else if c == squoteC then
        if inStr then
          (pvsLoop f cs [] false false paren true).map
            (fun vs => String.mk current :: vs)
        else
          pvsLoop f cs current true false paren false
      else if inStr then
        pvsLoop f cs (current ++ [c]) inStr false paren false
      else if (c == ',') && (paren == 0) then
        (pvsLoop f cs [] inStr false paren false).map
          (fun vs => normBare current :: vs)
      else if c == '(' then
        pvsLoop f cs (current ++ [c]) inStr false (paren + 1) false
      else if c == ')' then
        pvsLoop f cs (current ++ [c]) inStr false (paren - 1) false
      else
        pvsLoop f cs (current ++ [c]) inStr false paren false

/-- Step-indexed form of the record-splitting while-loop of
`parse_sql_values`. -/
def splitLoop : Nat → List Char → List Char → Bool → Bool → Int →
    Option (List (List String))
  | _, [], current, _, _, paren =>
      some (if !(pyStripL current).isEmpty && paren == 0 then
        [parse_record_values_l (pyStripL current)]
      else [])
  | 0, _ :: _, _, _, _, _ => none
  | f + 1, c :: cs, current, inStr, esc, paren =>
      if esc then
        splitLoop f cs (current ++ [c]) inStr false paren
      else if c == bslashC then
        splitLoop f cs (current ++ [c]) inStr true paren
      else if c == squoteC then
        splitLoop f cs (current ++ [c]) (!inStr) false paren
      else if inStr then
        splitLoop f cs (current ++ [c]) inStr false paren
      else if c == '(' then
        if paren + 1 == 1 then
          splitLoop f cs [] inStr false (paren + 1)
        else
          splitLoop f cs (current ++ [c]) inStr false (paren + 1)
      else if c == ')' then
        if paren - 1 == 0 then
          (splitLoop f cs [] inStr false (paren - 1)).map (fun rs =>
            (if !(pyStripL current).isEmpty then
              [parse_record_values_l (pyStripL current)]
            else []) ++ rs)
        else
          splitLoop f cs (current ++ [c]) inStr false (paren - 1)
      else
        splitLoop f cs (current ++ [c]) inStr false paren

/-- C1 counterexample: on the exact single-line blob
`INSERT INTO T (a,b,c) VALUES ('Jo, Ann', NULL, 42);` the
load_sql_data.py parser `parse_sql_values` yields zero rows — not the one
row the claim asserts for both parser instances — because both of its
regular expressions demand a newline after `VALUES`. -/
theorem c1_counterexample :
    parse_sql_values "INSERT INTO T (a,b,c) VALUES ('Jo, Ann', NULL, 42);" =
      some [] ∧
    ¬ (parse_sql_values
        "INSERT INTO T (a,b,c) VALUES ('Jo, Ann', NULL, 42);" =
      some [["Jo, Ann", nullSentinel, "42"]]) := by
  constructor
  · decide
  · decide

/-- C1 (amended): on the blob
`INSERT INTO T (a,b,c) VALUES ('Jo, Ann', NULL, 42);`
the create_full_database.py instance
(`parse_sql_insert_statements`/`parse_values_string`) yields exactly one row
with Values `["Jo, Ann", <null-sentinel>, "42"]`; the load_sql_data.py
instance (`parse_sql_values`/`parse_record_values`) yields zero rows on that
exact blob because its regexes require a newline after `VALUES`, and yields
the same single row once a newline follows `VALUES`. -/
theorem c1_single_row_statement :
    parse_sql_insert_statements
        "INSERT INTO T (a,b,c) VALUES ('Jo, Ann', NULL, 42);" =
      some [["Jo, Ann", nullSentinel, "42"]] ∧
    parse_sql_values "INSERT INTO T (a,b,c) VALUES ('Jo, Ann', NULL, 42);" =
      some [] ∧
    parse_sql_values
        "INSERT INTO T (a,b,c) VALUES\n('Jo, Ann', NULL, 42);" =
      some [["Jo, Ann", nullSentinel, "42"]] := by
  refine ⟨by decide, by decide, by decide⟩

/-- C2 counterexample: on the exact blob
`INSERT INTO T (a,b) VALUES ('x'),('y, z');` neither parser yields the two
rows `["x"]`, `["y, z"]` the claim asserts: `parse_sql_values` yields zero
rows (its regexes demand a newline after `VALUES`), and
`parse_sql_insert_statements` captures the whole tuple list in one
`([^;]+)` group and — its nesting counter going negative on the first `)`
— yields one row `["x", "),(y, z"]`. -/
theorem c2_counterexample :
    parse_sql_values "INSERT INTO T (a,b) VALUES ('x'),('y, z');" =
      some [] ∧
    parse_sql_insert_statements
        "INSERT INTO T (a,b) VALUES ('x'),('y, z');" =
      some [["x", "),(y, z"]] ∧
    ¬ (parse_sql_values "INSERT INTO T (a,b) VALUES ('x'),('y, z');" =
      some [["x"], ["y, z"]]) ∧
    ¬ (parse_sql_insert_statements
        "INSERT INTO T (a,b) VALUES ('x'),('y, z');" =
      some [["x"], ["y, z"]]) := by
  refine ⟨by decide, by decide, by decide, by decide⟩

/-- C2 (amended): the two-row result `["x"]`, `["y, z"]` is produced, in
source order, by the record-splitting loop of `parse_sql_values` when the
values section `('x'),('y, z')` reaches it — for instance on the blob with
a newline after `VALUES` and no trailing semicolon, where the
individual-INSERT regex fails and the batch branch runs.  On the exact
blob of the claim, `parse_sql_values` yields zero rows and
`parse_sql_insert_statements` yields the single row `["x", "),(y, z"]`. -/
theorem c2_multi_row_statement :
    splitRecords "('x'),('y, z')" = [["x"], ["y, z"]] ∧
    parse_sql_values "INSERT INTO T (a,b) VALUES\n('x'),('y, z')" =
      some [["x"], ["y, z"]] := by
  refine ⟨by decide, by decide⟩

/-- C5 counterexample: the claim says the empty-quoted-literal Value and
the bare-NULL sentinel can be told apart by the consumer, but both
normalizers send `''` and `NULL` to the very same output `[""]`. -/
theorem c5_counterexample :
    parse_record_values "''" = parse_record_values "NULL" ∧
    parse_values_string "''" = parse_values_string "NULL" := by
  refine ⟨by decide, by decide⟩

/-- C5 (amended): an empty quoted literal `''` normalizes to the
empty-string Value, and a bare `NULL` normalizes to the null-sentinel, but
the code's null-sentinel is itself the empty string, so the two outputs are
equal and not distinguishable by the consumer. -/
theorem c5_empty_string_vs_null :
    parse_record_values "''" = [""] ∧
    parse_record_values "NULL" = [nullSentinel] ∧
    parse_values_string "''" = [""] ∧
    parse_values_string "NULL" = [nullSentinel] ∧
    nullSentinel = "" := by
  refine ⟨by decide, by decide, by decide, by decide, rfl⟩

/-- Inside a quoted literal, `parse_record_values` appends every character
that is not a quote or an escape marker to the current buffer and changes no
other state. -/
theorem prvGo_inStr_append :
    ∀ (s rest current : List Char),
      (∀ c ∈ s, c ≠ squoteC ∧ c ≠ bslashC) →
      prvGo (s ++ rest) current true false false =
        prvGo rest (current ++ s) true false false := by
  intro s
  induction s with
  | nil => intro rest current _; simp
  | cons c s ih =>
      intro rest current h
      have h1 : (c == squoteC) = false :=
        beq_eq_false_iff_ne.mpr (h c (List.mem_cons_self c s)).1
      have h2 : (c == bslashC) = false :=
        beq_eq_false_iff_ne.mpr (h c (List.mem_cons_self c s)).2
      have hs : ∀ x ∈ s, x ≠ squoteC ∧ x ≠ bslashC :=
        fun x hx => h x (List.mem_cons_of_mem c hx)
      simp only [List.cons_append, prvGo, h1, h2, Bool.false_and,
        Bool.false_eq_true, if_false, Bool.true_eq_false, eq_self_iff_true,
        if_true, List.append_eq]
      rw [ih rest (current ++ [c]) hs]
      simp

/-- Inside a quoted literal, `parse_values_string` appends every character
that is not a quote or an escape marker to the current buffer; in
particular the parenthesis counter is never changed there. -/
theorem pvsGo_inStr_append :
    ∀ (s rest current : List Char) (paren : Int),
      (∀ c ∈ s, c ≠ squoteC ∧ c ≠ bslashC) →
      pvsGo (s ++ rest) current true false paren false =
        pvsGo rest (current ++ s) true false paren false := by
  intro s
  induction s with
  | nil => intro rest current paren _; simp
  | cons c s ih =>
      intro rest current paren h
      have h1 : (c == squoteC) = false :=
        beq_eq_false_iff_ne.mpr (h c (List.mem_cons_self c s)).1
      have h2 : (c == bslashC) = false :=
        beq_eq_false_iff_ne.mpr (h c (List.mem_cons_self c s)).2
      have hs : ∀ x ∈ s, x ≠ squoteC ∧ x ≠ bslashC :=
        fun x hx => h x (List.mem_cons_of_mem c hx)
      simp only [List.cons_append, pvsGo, h1, h2, Bool.false_and,
        Bool.false_eq_true, if_false, Bool.true_eq_false, eq_self_iff_true,
        if_true, List.append_eq]
      rw [ih rest (current ++ [c]) paren hs]
      simp

/-- Inside a quoted literal the record-splitting loop of `parse_sql_values`
appends every character that is not a quote or an escape marker to the
current record buffer; the nesting counter is never changed and no record
boundary is produced there. -/
theorem splitGo_inStr_append :
    ∀ (s rest current : List Char) (paren : Int),
      (∀ c ∈ s, c ≠ squoteC ∧ c ≠ bslashC) →
      splitGo (s ++ rest) current true false paren =
        splitGo rest (current ++ s) true false paren := by
  intro s
  induction s with
  | nil => intro rest current paren _; simp
  | cons c s ih =>
      intro rest current paren h
      have h1 : (c == squoteC) = false :=
        beq_eq_false_iff_ne.mpr (h c (List.mem_cons_self c s)).1
      have h2 : (c == bslashC) = false :=
        beq_eq_false_iff_ne.mpr (h c (List.mem_cons_self c s)).2
      have hs : ∀ x ∈ s, x ≠ squoteC ∧ x ≠ bslashC :=
        fun x hx => h x (List.mem_cons_of_mem c hx)
      simp only [List.cons_append, splitGo, h1, h2, Bool.false_and,
        Bool.false_eq_true, if_false, Bool.true_eq_false, eq_self_iff_true,
        if_true, List.append_eq]
      rw [ih rest (current ++ [c]) paren hs]
      simp

/-- `str.strip()` leaves a list alone when its first and last characters are
not whitespace. -/
theorem pyStripL_nonWs_ends (a b : Char) (xs : List Char)
    (ha : isPyWs a = false) (hb : isPyWs b = false) :
    pyStripL (a :: (xs ++ [b])) = a :: (xs ++ [b]) := by
  unfold pyStripL
  have e1 : (a :: (xs ++ [b])).dropWhile isPyWs = a :: (xs ++ [b]) := by
    simp [List.dropWhile_cons, ha]
  rw [e1]
  have e2 : (a :: (xs ++ [b])).reverse = b :: (xs.reverse ++ [a]) := by
    simp
  rw [e2]
  have e3 : (b :: (xs.reverse ++ [a])).dropWhile isPyWs =
      b :: (xs.reverse ++ [a]) := by
    simp [List.dropWhile_cons, hb]
  rw [e3]
  simp

/-- A quoted literal whose content contains no quote and no escape marker is
returned by `parse_record_values` as a single unsplit Value. -/
theorem prv_quoted (s : List Char)
    (h : ∀ c ∈ s, c ≠ squoteC ∧ c ≠ bslashC) :
    parse_record_values_l (squoteC :: (s ++ [squoteC])) = [String.mk s] := by
  have e1 : (squoteC == bslashC) = false := by decide
  have e2 : (squoteC == squoteC) = true := by decide
  unfold parse_record_values_l
  have step1 : prvGo (squoteC :: (s ++ [squoteC])) [] false false false =
      prvGo (s ++ [squoteC]) [] true false false := by
    simp [prvGo, e1, e2]
  rw [step1, prvGo_inStr_append s [squoteC] [] h]
  simp [prvGo, e1, e2, pyStripL]

/-- A quoted literal whose content contains no quote and no escape marker is
returned by `parse_values_string` as a single unsplit Value. -/
theorem pvs_quoted (s : List Char)
    (h : ∀ c ∈ s, c ≠ squoteC ∧ c ≠ bslashC) :
    parse_values_string_l (squoteC :: (s ++ [squoteC])) = [String.mk s] := by
  have e1 : (squoteC == bslashC) = false := by decide
  have e2 : (squoteC == squoteC) = true := by decide
  unfold parse_values_string_l
  have step1 : pvsGo (squoteC :: (s ++ [squoteC])) [] false false 0 false =
      pvsGo (s ++ [squoteC]) [] true false 0 false := by
    simp [pvsGo, e1, e2]
  rw [step1, pvsGo_inStr_append s [squoteC] [] 0 h]
  simp [pvsGo, e1, e2, pyStripL]

/-- `str.strip()` of an empty list is empty. -/
theorem pyStripL_nil : pyStripL [] = [] := by
  simp [pyStripL]

/-- A parenthesized row whose single field is a quoted literal free of
quotes and escape markers is split off as one row with that one Value. -/
theorem split_quoted (s : List Char)
    (h : ∀ c ∈ s, c ≠ squoteC ∧ c ≠ bslashC) :
    splitRecords_l ('(' :: squoteC :: (s ++ [squoteC, ')'])) =
      [[String.mk s]] := by
  have d1 : ('(' : Char) ≠ bslashC := by decide
  have d2 : ('(' : Char) ≠ squoteC := by decide
  have d3 : (')' : Char) ≠ bslashC := by decide
  have d4 : (')' : Char) ≠ squoteC := by decide
  have d5 : squoteC ≠ bslashC := by decide
  have d6 : (')' : Char) ≠ '(' := by decide
  unfold splitRecords_l
  have step1 : splitGo ('(' :: squoteC :: (s ++ [squoteC, ')'])) [] false
      false 0 = splitGo (squoteC :: (s ++ [squoteC, ')'])) [] false false
      1 := by
    simp [splitGo, d1, d2]
  have step2 : splitGo (squoteC :: (s ++ [squoteC, ')'])) [] false false 1 =
      splitGo (s ++ [squoteC, ')']) [squoteC] true false 1 := by
    simp [splitGo, d5]
  rw [step1, step2, splitGo_inStr_append s [squoteC, ')'] [squoteC] 1 h]
  have step3 : splitGo [squoteC, ')'] ([squoteC] ++ s) true false 1 =
      splitGo [')'] (([squoteC] ++ s) ++ [squoteC]) false false 1 := by
    simp [splitGo, d5]
  rw [step3]
  have e4 : (([squoteC] ++ s) ++ [squoteC] : List Char) =
      squoteC :: (s ++ [squoteC]) := by simp
  rw [e4]
  have hstrip : pyStripL (squoteC :: (s ++ [squoteC])) =
      squoteC :: (s ++ [squoteC]) :=
    pyStripL_nonWs_ends squoteC squoteC s (by decide) (by decide)
  have step4 : splitGo [')'] (squoteC :: (s ++ [squoteC])) false false 1 =
      (if !(pyStripL (squoteC :: (s ++ [squoteC]))).isEmpty then
        [parse_record_values_l (pyStripL (squoteC :: (s ++ [squoteC])))]
      else []) ++ splitGo [] [] false false 0 := by
    simp [splitGo, d3, d4, d6]
  rw [step4, hstrip]
  simp [prv_quoted s h, splitGo, pyStripL_nil]

/-- C3: a single-quoted literal whose content may contain commas and
close-parentheses (any characters except the quote and the escape marker)
is returned as exactly one unsplit string Value by `parse_record_values`
and by `parse_values_string`; inside the quoted region characters never act
as field separators, never change the nesting counter (the counter argument
`paren` is passed through untouched for any value), and never end the row
in the record-splitting loop of `parse_sql_values`. -/
theorem c3_quoted_literal_unsplit (s : List Char)
    (h : ∀ c ∈ s, c ≠ squoteC ∧ c ≠ bslashC) :
    parse_record_values_l (squoteC :: (s ++ [squoteC])) = [String.mk s] ∧
    parse_values_string_l (squoteC :: (s ++ [squoteC])) = [String.mk s] ∧
    splitRecords_l ('(' :: squoteC :: (s ++ [squoteC, ')'])) =
      [[String.mk s]] ∧
    (∀ (rest current : List Char) (paren : Int),
        pvsGo (s ++ rest) current true false paren false =
          pvsGo rest (current ++ s) true false paren false) ∧
    (∀ (rest current : List Char) (paren : Int),
        splitGo (s ++ rest) current true false paren =
          splitGo rest (current ++ s) true false paren) :=
  ⟨prv_quoted s h, pvs_quoted s h, split_quoted s h,
    fun rest current paren => pvsGo_inStr_append s rest current paren h,
    fun rest current paren => splitGo_inStr_append s rest current paren h⟩

/-- C3 witness: the spec's own example literal `'value, with (parens)'`
satisfies the hypothesis and comes back as the single Value
`value, with (parens)` from both tokenizer instances. -/
theorem c3_witness :
    (∀ c ∈ "value, with (parens)".data, c ≠ squoteC ∧ c ≠ bslashC) ∧
    parse_record_values_l
        (squoteC :: ("value, with (parens)".data ++ [squoteC])) =
      [String.mk "value, with (parens)".data] ∧
    parse_values_string_l
        (squoteC :: ("value, with (parens)".data ++ [squoteC])) =
      [String.mk "value, with (parens)".data] :=
  ⟨by decide,
    (c3_quoted_literal_unsplit "value, with (parens)".data (by decide)).1,
    (c3_quoted_literal_unsplit "value, with (parens)".data (by decide)).2.1⟩

/-- C4: every bare token whose stripped text equals `NULL` case-insensitively
normalizes to the null-sentinel; the three spellings `NULL`, `null`, `Null`
all map to that same sentinel in both parsers, while the quoted token
`'NULL'` normalizes to the three-letter string `NULL`, which is not the
sentinel. -/
theorem c4_null_normalization :
    (∀ cs : List Char, pyUpperL (pyStripL cs) = kwNULL →
        normBare cs = nullSentinel) ∧
    parse_record_values "NULL" = [nullSentinel] ∧
    parse_record_values "null" = [nullSentinel] ∧
    parse_record_values "Null" = [nullSentinel] ∧
    parse_values_string "NULL" = [nullSentinel] ∧
    parse_values_string "null" = [nullSentinel] ∧
    parse_values_string "Null" = [nullSentinel] ∧
    parse_record_values "'NULL'" = ["NULL"] ∧
    parse_values_string "'NULL'" = ["NULL"] ∧
    "NULL" ≠ nullSentinel := by
  refine ⟨?_, by decide, by decide, by decide, by decide, by decide,
    by decide, by decide, by decide, by decide⟩
  intro cs hcs
  unfold normBare
  simp [hcs]

/-- C4 witness: a concrete bare token with mixed case and surrounding
whitespace strips and uppercases to `NULL` and normalizes to the
null-sentinel. -/
theorem c4_witness :
    pyUpperL (pyStripL "  nuLl ".data) = kwNULL ∧
    normBare "  nuLl ".data = nullSentinel :=
  ⟨by decide, c4_null_normalization.1 "  nuLl ".data (by decide)⟩

/-- C6: whenever the escape flag is set, the tokenizers append the next
character to the current buffer unconditionally — it is never interpreted
as a quote terminator, comma, or parenthesis control character — and the
flag resets; a backslash itself is appended and sets the flag, so a
captured `\'` stays the two characters backslash-then-quote in the output
Value, as the concrete runs show. -/
theorem c6_escape_append_unconditional :
    (∀ (c : Char) (cs current : List Char) (inStr : Bool),
        prvGo (c :: cs) current inStr true false =
          prvGo cs (current ++ [c]) inStr false false) ∧
    (∀ (cs current : List Char) (inStr : Bool),
        prvGo (bslashC :: cs) current inStr false false =
          prvGo cs (current ++ [bslashC]) inStr true false) ∧
    (∀ (c : Char) (cs current : List Char) (inStr : Bool) (paren : Int),
        pvsGo (c :: cs) current inStr true paren false =
          pvsGo cs (current ++ [c]) inStr false paren false) ∧
    (∀ (cs current : List Char) (inStr : Bool) (paren : Int),
        pvsGo (bslashC :: cs) current inStr false paren false =
          pvsGo cs (current ++ [bslashC]) inStr true paren false) ∧
    parse_record_values "'a\\'b'" = ["a\\'b"] ∧
    parse_values_string "'a\\'b'" = ["a\\'b"] := by
  refine ⟨?_, ?_, ?_, ?_, by decide, by decide⟩
  · intro c cs current inStr
    simp [prvGo]
  · intro cs current inStr
    simp [prvGo]
  · intro c cs current inStr paren
    simp [pvsGo]
  · intro cs current inStr paren
    simp [pvsGo]

/-- C7 counterexample: on the blob `INSERT INTO T (a) VALUES\n'unterminated`
the scan reaches end-of-input with the quoted-literal flag still true (at
nesting zero), yet the malformed trailing fragment is not discarded — it is
emitted as the row `["unterminated"]` — contradicting the claim that every
such trailing fragment is dropped. -/
theorem c7_counterexample :
    parse_sql_values "INSERT INTO T (a) VALUES\n'unterminated" =
      some [["unterminated"]] ∧
    ¬ (parse_sql_values "INSERT INTO T (a) VALUES\n'unterminated" =
      some []) := by
  refine ⟨by decide, by decide⟩

/-- C7 (amended): when the record-splitting loop reaches end-of-input with
the nesting counter nonzero, the trailing fragment is discarded (nothing is
emitted from it), and rows already emitted remain — the blob
`INSERT INTO T (a) VALUES\n('good'),('unterminated` yields exactly the
earlier row `["good"]`; but when only the quoted-literal flag is still true
at nesting zero the fragment is emitted as a row.  No malformed-input
diagnostic is produced by the loop; the exact example blob
`INSERT INTO T (a) VALUES ('unterminated` yields zero rows without raising,
with only the generic no-VALUES-section error logged (both regexes fail
because no newline follows `VALUES`). -/
theorem c7_malformed_tail_behaviour :
    (∀ (current : List Char) (inStr esc : Bool) (paren : Int), paren ≠ 0 →
        splitGo [] current inStr esc paren = []) ∧
    parse_sql_values "INSERT INTO T (a) VALUES\n('good'),('unterminated" =
      some [["good"]] ∧
    parse_sql_values "INSERT INTO T (a) VALUES ('unterminated" = some [] ∧
    parse_sql_values_reports_no_values
        "INSERT INTO T (a) VALUES ('unterminated" = true ∧
    parse_sql_values "INSERT INTO T (a) VALUES\n'unterminated" =
      some [["unterminated"]] := by
  refine ⟨?_, by decide, by decide, by decide, by decide⟩
  intro current inStr esc paren hp
  have : (paren == 0) = false := beq_eq_false_iff_ne.mpr hp
  simp [splitGo, this]

/-- C7 witness: at nesting depth 1 a non-empty unterminated fragment is
discarded at end-of-input. -/
theorem c7_witness :
    ((1 : Int) ≠ 0) ∧ splitGo [] "leftover".data false false 1 = [] :=
  ⟨by decide,
    c7_malformed_tail_behaviour.1 "leftover".data false false 1 (by decide)⟩

/-- `padTruncate` always returns exactly `n` entries. -/
theorem padTruncate_length (n : Nat) (r : List String) :
    (padTruncate n r).length = n := by
  simp [padTruncate]
  omega

/-- Closed form of `padTruncate`: keep the first `n` entries and fill the
missing tail with the null-sentinel. -/
theorem padTruncate_eq (n : Nat) (r : List String) :
    padTruncate n r =
      r.take n ++ List.replicate (n - r.length) nullSentinel := by
  unfold padTruncate
  rw [List.take_append_eq_append_take, List.take_replicate]
  simp

/-- C8: before the parameterized write, a parsed row is adjusted to exactly
the loader's target column count — 58 in `load_sql_file`, 57 in
`load_sample_cases_500` — keeping the first `N` Values and right-padding
any missing positions with the null-sentinel: a shorter row is padded on
the right up to `N` (then `take` is the identity) and a longer row is
truncated on the right to `N` (then the padding is empty). -/
theorem c8_pad_truncate (r : List String) :
    (padTruncate 58 r).length = 58 ∧
    padTruncate 58 r =
      r.take 58 ++ List.replicate (58 - r.length) nullSentinel ∧
    (padTruncate 57 r).length = 57 ∧
    padTruncate 57 r =
      r.take 57 ++ List.replicate (57 - r.length) nullSentinel :=
  ⟨padTruncate_length 58 r, padTruncate_eq 58 r,
    padTruncate_length 57 r, padTruncate_eq 57 r⟩

/-- Each write outcome is counted in exactly one of the three
classifications. -/
theorem classifiers_partition (w : WriteOutcome) :
    (if isOkRow w then 1 else 0) + (if isDupRow w then 1 else 0) +
      (if isErrRow w then 1 else 0) = 1 := by
  cases w with
  | ok => simp [isOkRow, isDupRow, isErrRow]
  | integrityError msg =>
      by_cases hm : isUniqueViolation msg <;>
        simp [isOkRow, isDupRow, isErrRow, hm]
  | otherError msg => simp [isOkRow, isDupRow, isErrRow]

/-- Closed form of the loader loop: starting from any statistics, the fold
adds one to `inserted` per successful row, one to `dupSkipped` per
UNIQUE-violation row, and one to `errors` per other failing row. -/
theorem loadRecords_foldl (write : List String → WriteOutcome) :
    ∀ (rs : List (List String)) (st : LoadStats),
      List.foldl (fun s r => handleRow s (write r)) st rs =
        ⟨st.inserted + rs.countP (fun r => isOkRow (write r)),
         st.dupSkipped + rs.countP (fun r => isDupRow (write r)),
         st.errors + rs.countP (fun r => isErrRow (write r))⟩ := by
  intro rs
  induction rs with
  | nil => intro st; simp [List.countP_nil]
  | cons r rs ih =>
      intro st
      rw [List.foldl_cons, ih (handleRow st (write r))]
      cases hw : write r with
      | ok =>
          simp [handleRow, isOkRow, isDupRow, isErrRow, List.countP_cons,
            hw]
          omega
      | integrityError msg =>
          by_cases hm : isUniqueViolation msg <;>
            · simp [handleRow, isOkRow, isDupRow, isErrRow,
                List.countP_cons, hw, hm]
              omega
      | otherError msg =>
          simp [handleRow, isOkRow, isDupRow, isErrRow, List.countP_cons,
            hw]
          omega

/-- The three per-row counts always cover the whole batch. -/
theorem countP_three (write : List String → WriteOutcome) :
    ∀ rs : List (List String),
      rs.countP (fun r => isOkRow (write r)) +
        rs.countP (fun r => isDupRow (write r)) +
        rs.countP (fun r => isErrRow (write r)) = rs.length := by
  intro rs
  induction rs with
  | nil => simp
  | cons r rs ih =>
      simp only [List.countP_cons, List.length_cons]
      have := classifiers_partition (write r)
      omega

/-- C9: a row whose write raises an `IntegrityError` mentioning
`UNIQUE constraint failed` is classified as a duplicate and skipped; an
`IntegrityError` without that text, and any other per-row error, only
increments the error count for that row; the loop is a total function that
attempts every row of the batch — the three counters always sum to the
batch length, so no row's failure terminates the load or skips the
remaining rows. -/
theorem c9_error_handling :
    (∀ (st : LoadStats) (msg : String), isUniqueViolation msg = true →
        handleRow st (WriteOutcome.integrityError msg) =
          ⟨st.inserted, st.dupSkipped + 1, st.errors⟩) ∧
    (∀ (st : LoadStats) (msg : String), isUniqueViolation msg = false →
        handleRow st (WriteOutcome.integrityError msg) =
          ⟨st.inserted, st.dupSkipped, st.errors + 1⟩) ∧
    (∀ (st : LoadStats) (msg : String),
        handleRow st (WriteOutcome.otherError msg) =
          ⟨st.inserted, st.dupSkipped, st.errors + 1⟩) ∧
    (∀ (write : List String → WriteOutcome) (records : List (List String)),
        loadRecords write records =
          ⟨records.countP (fun r => isOkRow (write r)),
           records.countP (fun r => isDupRow (write r)),
           records.countP (fun r => isErrRow (write r))⟩ ∧
        (loadRecords write records).inserted +
          (loadRecords write records).dupSkipped +
          (loadRecords write records).errors = records.length) := by
  refine ⟨?_, ?_, ?_, ?_⟩
  · intro st msg hm
    simp [handleRow, hm]
  · intro st msg hm
    simp [handleRow, hm]
  · intro st msg
    simp [handleRow]
  · intro write records
    have hclosed : loadRecords write records =
        ⟨records.countP (fun r => isOkRow (write r)),
         records.countP (fun r => isDupRow (write r)),
         records.countP (fun r => isErrRow (write r))⟩ := by
      unfold loadRecords
      rw [loadRecords_foldl write records ⟨0, 0, 0⟩]
      simp
    refine ⟨hclosed, ?_⟩
    rw [hclosed]
    exact countP_three write records

/-- C9 witness: a duplicate-key violation on the business key is skipped
(counted as a duplicate), while a different integrity error is logged as a
row error. -/
theorem c9_witness :
    isUniqueViolation "UNIQUE constraint failed: Cases.Case_Number" =
      true ∧
    handleRow ⟨0, 0, 0⟩
        (WriteOutcome.integrityError
          "UNIQUE constraint failed: Cases.Case_Number") =
      ⟨0, 0 + 1, 0⟩ ∧
    handleRow ⟨0, 0, 0⟩
        (WriteOutcome.integrityError "FOREIGN KEY constraint failed") =
      ⟨0, 0, 0 + 1⟩ :=
  ⟨by decide,
    c9_error_handling.1 ⟨0, 0, 0⟩
      "UNIQUE constraint failed: Cases.Case_Number" (by decide),
    c9_error_handling.2.1 ⟨0, 0, 0⟩ "FOREIGN KEY constraint failed"
      (by decide)⟩

/-- The `parse_record_values` loop needs at most one iteration per input
character: with fuel at least the input length the step-indexed loop never
exhausts and computes the loop's result. -/
theorem prvLoop_adequate :
    ∀ (f : Nat) (cs : List Char), cs.length ≤ f →
      ∀ (current : List Char) (inStr esc skipping : Bool),
        prvLoop f cs current inStr esc skipping =
          some (prvGo cs current inStr esc skipping) := by
  intro f
  induction f with
  | zero =>
      intro cs hlen current inStr esc skipping
      have : cs = [] := List.length_eq_zero.mp (Nat.le_zero.mp hlen)
      subst this
      rfl
  | succ f ih =>
      intro cs hlen current inStr esc skipping
      cases cs with
      | nil => rfl
      | cons c cs =>
          have h' : cs.length ≤ f := by
            have h2 := hlen
            simp [List.length_cons] at h2
            omega
          simp only [prvLoop, prvGo]
          split_ifs <;> simp [ih cs h']

set_option maxHeartbeats 1600000 in
/-- The `parse_values_string` loop needs at most one iteration per input
character. -/
theorem pvsLoop_adequate :
    ∀ (f : Nat) (cs : List Char), cs.length ≤ f →
      ∀ (current : List Char) (inStr esc skipping : Bool) (paren : Int),
        pvsLoop f cs current inStr esc paren skipping =
          some (pvsGo cs current inStr esc paren skipping) := by
  intro f
  induction f with
  | zero =>
      intro cs hlen current inStr esc skipping paren
      have : cs = [] := List.length_eq_zero.mp (Nat.le_zero.mp hlen)
      subst this
      rfl
  | succ f ih =>
      intro cs hlen current inStr esc skipping paren
      cases cs with
      | nil => rfl
      | cons c cs =>
          have h' : cs.length ≤ f := by
            have h2 := hlen
            simp [List.length_cons] at h2
            omega
          simp only [pvsLoop, pvsGo]
          split_ifs <;>
            first
              | exact ih cs h' _ _ _ _ _
              | (rw [ih cs h' [] false false true]; rfl)
              | (rw [ih cs h' [] _ false false]; rfl)

set_option maxHeartbeats 1600000 in
/-- The record-splitting loop of `parse_sql_values` needs at most one
iteration per input character. -/
theorem splitLoop_adequate :
    ∀ (f : Nat) (cs : List Char), cs.length ≤ f →
      ∀ (current : List Char) (inStr esc : Bool) (paren : Int),
        splitLoop f cs current inStr esc paren =
          some (splitGo cs current inStr esc paren) := by
  intro f
  induction f with
  | zero =>
      intro cs hlen current inStr esc paren
      have : cs = [] := List.length_eq_zero.mp (Nat.le_zero.mp hlen)
      subst this
      rfl
  | succ f ih =>
      intro cs hlen current inStr esc paren
      cases cs with
      | nil => rfl
      | cons c cs =>
          have h' : cs.length ≤ f := by
            have h2 := hlen
            simp [List.length_cons] at h2
            omega
          simp only [splitLoop, splitGo]
          split_ifs <;>
            first
              | exact ih cs h' _ _ _ _
              | (rw [ih cs h' [] _ false _]; rfl)

/-- C10: every hand-rolled character-scanning loop of the parsers — the
`parse_record_values` loop, the `parse_values_string` loop, and the
record-splitting loop of `parse_sql_values` — is total on every finite
input: each loop iteration advances past at least one character, so the
step-indexed loop run with any fuel of at least the input length never
exhausts (no lookahead runs past the end) and returns the list the
denotation computes. -/
theorem c10_loops_terminate (f : Nat) (cs : List Char)
    (h : cs.length ≤ f) :
    (∀ (current : List Char) (inStr esc skipping : Bool),
        prvLoop f cs current inStr esc skipping =
          some (prvGo cs current inStr esc skipping)) ∧
    (∀ (current : List Char) (inStr esc skipping : Bool) (paren : Int),
        pvsLoop f cs current inStr esc paren skipping =
          some (pvsGo cs current inStr esc paren skipping)) ∧
    (∀ (current : List Char) (inStr esc : Bool) (paren : Int),
        splitLoop f cs current inStr esc paren =
          some (splitGo cs current inStr esc paren)) :=
  ⟨fun current inStr esc skipping =>
      prvLoop_adequate f cs h current inStr esc skipping,
    fun current inStr esc skipping paren =>
      pvsLoop_adequate f cs h current inStr esc skipping paren,
    fun current inStr esc paren =>
      splitLoop_adequate f cs h current inStr esc paren⟩

/-- C10 witness: on the concrete row text `'a', NULL` (8 characters) all
three loops finish within 8 iterations with the expected outputs. -/
theorem c10_witness :
    ("'a', NULL".data.length ≤ 9) ∧
    prvLoop 9 "'a', NULL".data [] false false false =
      some (prvGo "'a', NULL".data [] false false false) ∧
    pvsLoop 9 "'a', NULL".data [] false false 0 false =
      some (pvsGo "'a', NULL".data [] false false 0 false) ∧
    splitLoop 9 "'a', NULL".data [] false false 0 =
      some (splitGo "'a', NULL".data [] false false 0) :=
  ⟨by decide,
    (c10_loops_terminate 9 "'a', NULL".data (by decide)).1 [] false false
      false,
    (c10_loops_terminate 9 "'a', NULL".data (by decide)).2.1 [] false false
      false 0,
    (c10_loops_terminate 9 "'a', NULL".data (by decide)).2.2 [] false false
      0⟩
